import Mathlib

/-!
Verification development for the hypertension analytics dashboard
(`src/app.py`).  The dashboard loads a CSV of patient records, enriches it
with a derived "Life Stage" column, filters it by sidebar predicates, and
computes summary statistics and a ranked list of pairwise correlations.

The embedding below follows the source line by line:
  * `load_data`   — lines 76–106 (untyped column table, pandas semantics);
  * `filterCohort`— lines 124–128;
  * `global_htn_rate`, `global_bmi` — lines 109–110;
  * `summarize`   — lines 135–155 (the "story engine" block);
  * `corrLab`     — lines 272–295 (the correlation lab pipeline).
Floats are embedded as exact rationals; a pandas NaN is `Option.none`;
Python exceptions become `Except` errors.
-/

/-- A cell of a raw pandas table: a string, a number (exact rational in place
of the source's floats), or a missing value (NaN). -/
inductive Value where
  | str (s : String)
  | num (q : ℚ)
  | na
deriving DecidableEq, Repr

/-- Python exceptions that the embedded code can raise. -/
inductive PyErr where
  | zeroDivision
  | keyError (c : String)
  | typeError
deriving DecidableEq, Repr

/-- One row of the enriched table (the schema after `load_data`): the eleven
source columns with display names plus the derived `Life Stage` column.
Field order follows the column order of the loaded frame. -/
structure Row where
  hypertension : String
  lifeStage : String
  smokingStatus : String
  saltIntake : ℚ
  stressScore : ℚ
  bpHistory : String
  sleepDuration : ℚ
  activityLevel : String
  familyHistory : String
  age : ℚ
  bmi : ℚ
  medication : String
deriving DecidableEq, Repr

/-- Lines 124–128: the cohort filter.  `Series.between` is inclusive at both
endpoints and `isin` is literal set membership, so an empty multiselect
matches no rows.  The three masks are conjoined with `&`. -/
def filterCohort (df : List Row) (ageLo ageHi : ℚ)
    (familyHist exerciseFilter : List String) : List Row :=
  df.filter (fun r =>
    (decide (ageLo ≤ r.age) && decide (r.age ≤ ageHi)) &&
    decide (r.familyHistory ∈ familyHist) &&
    decide (r.activityLevel ∈ exerciseFilter))

/-- `len(df[df['Hypertension'] == 'Yes'])`. -/
def countYes (rows : List Row) : ℕ :=
  (rows.filter (fun r => r.hypertension == "Yes")).length

/-- Line 109: `global_htn_rate = (len(df[df['Hypertension']=='Yes']) / len(df)) * 100`.
The division is unguarded in the source, so a zero-row table raises
`ZeroDivisionError`. -/
def global_htn_rate (df : List Row) : Except PyErr ℚ :=
  if df.length = 0 then .error .zeroDivision
  else .ok (((countYes df : ℚ) / (df.length : ℚ)) * 100)

/-- `Series.mean()` as exact rational arithmetic.  (pandas returns NaN on an
empty column; every use below is guarded to non-empty input.) -/
def mean (xs : List ℚ) : ℚ := xs.sum / (xs.length : ℚ)

/-- Number of occurrences of `v` in `xs`. -/
def occCount (v : String) (xs : List String) : ℕ :=
  (xs.filter (fun w => w == v)).length

/-- Ascending insertion of a string into a sorted list. -/
def insertStr (s : String) : List String → List String
  | [] => [s]
  | t :: rest => if t < s then t :: insertStr s rest else s :: t :: rest

/-- Ascending insertion sort on strings (the order pandas uses both for
`Series.mode()` results and for the categories of a string column). -/
def sortStrs : List String → List String
  | [] => []
  | s :: rest => insertStr s (sortStrs rest)

/-- `Series.mode()[0]`: pandas returns the most frequent values sorted
ascending, and `[0]` picks the first, i.e. the lexicographically smallest
value of maximal multiplicity.  `none` on an empty series (where `[0]`
would raise). -/
def modeHead (xs : List String) : Option String :=
  let uniq := sortStrs (xs.eraseDups)
  uniq.foldl (fun acc v =>
    match acc with
    | none => some v
    | some b => if occCount b xs < occCount v xs then some v else acc) none

/-- The variables assigned by the story-engine block (lines 135–155).  The
fields defaulted at lines 138–142 are plain rationals; the three variables
assigned only inside the `if total_p > 0` branch (lines 153–155) never exist
on the empty path, hence `Option`. -/
structure Summary where
  total_p : ℕ
  current_risk : ℚ
  risk_delta : ℚ
  avg_bmi : ℚ
  bmi_delta : ℚ
  avg_sleep : ℚ
  dom_stage : Option String
  avg_stress : Option ℚ
  stress_desc : Option String
deriving DecidableEq, Repr

/-- Lines 135–155.  `globalRate` and `globalBmi` are the module-level values
of lines 109–110.  Inside the guarded branch the source computes
`dom_stage = filtered_df['Life Stage'].mode()[0] if not filtered_df.empty
else "Mixed"`; the `else "Mixed"` arm is unreachable there because the
branch requires `total_p > 0`. -/
def summarize (globalRate globalBmi : ℚ) (cohort : List Row) : Summary :=
  let total_p := cohort.length
  if 0 < total_p then
    let hyp_count := countYes cohort
    let current_risk := (hyp_count : ℚ) / (total_p : ℚ) * 100
    let risk_delta := current_risk - globalRate
    let avg_bmi := mean (cohort.map (·.bmi))
    let bmi_delta := avg_bmi - globalBmi
    let avg_sleep := mean (cohort.map (·.sleepDuration))
    let dom_stage :=
      if !cohort.isEmpty then modeHead (cohort.map (·.lifeStage)) else some "Mixed"
    let avg_stress := mean (cohort.map (·.stressScore))
    let stress_desc :=
      if 6 < avg_stress then "High" else if 4 < avg_stress then "Moderate" else "Low"
    ⟨total_p, current_risk, risk_delta, avg_bmi, bmi_delta, avg_sleep,
      dom_stage, some avg_stress, some stress_desc⟩
  else
    ⟨total_p, 0, 0, 0, 0, 0, none, none, none⟩

/-- The filter-and-summarize pipeline over an already-validated table:
lines 109–110 (global baselines) followed by lines 124–128 and 135–155. -/
def pipeline (df : List Row) (ageLo ageHi : ℚ)
    (familyHist exerciseFilter : List String) : Except PyErr Summary :=
  match global_htn_rate df with
  | .error e => .error e
  | .ok ghr =>
      .ok (summarize ghr (mean (df.map (·.bmi)))
            (filterCohort df ageLo ageHi familyHist exerciseFilter))

/-- A patient row template used by the concrete examples; only the fields a
given example varies are overridden at use sites. -/
def baseRow : Row :=
  { hypertension := "No"
    lifeStage := "Young Adult (18-34)"
    smokingStatus := "Never"
    saltIntake := 8
    stressScore := 5
    bpHistory := "Normal"
    sleepDuration := 7
    activityLevel := "Moderate"
    familyHistory := "No"
    age := 30
    bmi := 25
    medication := "None" }

/-- The spec's §8 example table: four rows with ages 20, 70, 30, 80. -/
def exampleDf4 : List Row :=
  [ { baseRow with age := 20 }, { baseRow with age := 70 },
    { baseRow with age := 30 }, { baseRow with age := 80 } ]

/-- A two-row table with one hypertensive patient: global prevalence 50%. -/
def twoRowDf : List Row :=
  [ { baseRow with hypertension := "Yes" }, baseRow ]

/-- Two rows whose stress scores are 5 and 7 (the spec's §8 bucket example). -/
def stressExampleCohort : List Row :=
  [ { baseRow with stressScore := 5 }, { baseRow with stressScore := 7 } ]

theorem summarize_of_pos (ghr gbmi : ℚ) (cohort : List Row)
    (h : 0 < cohort.length) :
    summarize ghr gbmi cohort =
      ⟨cohort.length,
       (countYes cohort : ℚ) / (cohort.length : ℚ) * 100,
       (countYes cohort : ℚ) / (cohort.length : ℚ) * 100 - ghr,
       mean (cohort.map (·.bmi)),
       mean (cohort.map (·.bmi)) - gbmi,
       mean (cohort.map (·.sleepDuration)),
       if !cohort.isEmpty then modeHead (cohort.map (·.lifeStage)) else some "Mixed",
       some (mean (cohort.map (·.stressScore))),
       some (if 6 < mean (cohort.map (·.stressScore)) then "High"
             else if 4 < mean (cohort.map (·.stressScore)) then "Moderate"
             else "Low")⟩ := by
  simp [summarize, h]

theorem summarize_of_empty (ghr gbmi : ℚ) :
    summarize ghr gbmi [] = ⟨0, 0, 0, 0, 0, 0, none, none, none⟩ := rfl

/-- Claim C9: the cohort filter returns exactly the rows with Age in [lo,hi]
inclusive, Family History in the selected set and Activity Level in the
selected set; an empty selected set yields an empty cohort; on the spec's
example table with ages [20,70,30,80] and age range [18,65] the cohort is
exactly the two rows with ages 20 and 30. -/
theorem c9_cohort_filter_exact :
    (∀ (df : List Row) (lo hi : ℚ) (fh al : List String) (r : Row),
        r ∈ filterCohort df lo hi fh al ↔
          r ∈ df ∧ (lo ≤ r.age ∧ r.age ≤ hi) ∧
            r.familyHistory ∈ fh ∧ r.activityLevel ∈ al)
    ∧ (∀ (df : List Row) (lo hi : ℚ) (al : List String),
        filterCohort df lo hi [] al = [])
    ∧ filterCohort exampleDf4 18 65 ["No"] ["Moderate"]
        = [{ baseRow with age := 20 }, { baseRow with age := 30 }]
    ∧ (filterCohort exampleDf4 18 65 ["No"] ["Moderate"]).length = 2 := by
  refine ⟨?_, ?_, by decide, by decide⟩
  · intro df lo hi fh al r
    simp [filterCohort, List.mem_filter, and_assoc]
  · intro df lo hi al
    simp [filterCohort]

/-- Claim C10: for a non-empty cohort the stress bucket is "High" iff the mean
stress exceeds 6, "Moderate" iff it exceeds 4 but not 6, and "Low" iff it is
at most 4; the spec's example cohort with stress scores [5,7] has mean 6 and
bucket "Moderate". -/
theorem c10_stress_bucket :
    (∀ (ghr gbmi : ℚ) (cohort : List Row), cohort ≠ [] →
        ((summarize ghr gbmi cohort).stress_desc = some "High"
            ↔ 6 < mean (cohort.map (·.stressScore)))
        ∧ ((summarize ghr gbmi cohort).stress_desc = some "Moderate"
            ↔ 4 < mean (cohort.map (·.stressScore))
              ∧ mean (cohort.map (·.stressScore)) ≤ 6)
        ∧ ((summarize ghr gbmi cohort).stress_desc = some "Low"
            ↔ mean (cohort.map (·.stressScore)) ≤ 4))
    ∧ (summarize 0 0 stressExampleCohort).avg_stress = some 6
    ∧ (summarize 0 0 stressExampleCohort).stress_desc = some "Moderate" := by
  have hmap : stressExampleCohort.map (·.stressScore) = [5, 7] := by
    simp [stressExampleCohort, baseRow]
  refine ⟨?_, ?_, ?_⟩
  · intro ghr gbmi cohort hne
    rw [summarize_of_pos ghr gbmi cohort (List.length_pos.mpr hne)]
    by_cases h6 : 6 < mean (cohort.map (·.stressScore))
    · have h4 : 4 < mean (cohort.map (·.stressScore)) :=
        lt_trans (by norm_num) h6
      simp [h6, not_le.mpr h6, not_le.mpr h4]
    · by_cases h4 : 4 < mean (cohort.map (·.stressScore))
      · simp [h6, h4, not_lt.mp h6, not_le.mpr h4]
      · simp [h6, h4, not_lt.mp h4]
  · rw [summarize_of_pos 0 0 stressExampleCohort (by decide)]
    norm_num [hmap, mean]
  · rw [summarize_of_pos 0 0 stressExampleCohort (by decide)]
    norm_num [hmap, mean]

/-- Claim C1 (amended): for a non-empty cohort `risk_delta` equals the
cohort prevalence minus the global prevalence; for an empty cohort the
source keeps the default `risk_delta = 0` from line 139 instead of
`0 - global prevalence`. -/
theorem c1_risk_delta (ghr gbmi : ℚ) (cohort : List Row) :
    (cohort ≠ [] →
        (summarize ghr gbmi cohort).risk_delta
          = (countYes cohort : ℚ) / (cohort.length : ℚ) * 100 - ghr)
    ∧ (cohort = [] → (summarize ghr gbmi cohort).risk_delta = 0) := by
  constructor
  · intro h
    rw [summarize_of_pos ghr gbmi cohort (List.length_pos.mpr h)]
  · rintro rfl
    rfl

theorem c1_risk_delta_witness :
    (summarize 50 25 twoRowDf).risk_delta
      = (countYes twoRowDf : ℚ) / (twoRowDf.length : ℚ) * 100 - 50 :=
  (c1_risk_delta 50 25 twoRowDf).1 (by decide)

/-- Claim C1 counterexample: on the two-row table the global prevalence is
50, an empty multiselect produces the empty cohort, and the summary reports
`risk_delta = 0` there — not cohort prevalence minus global prevalence,
which would be `0 - 50 ≠ 0`. -/
theorem c1_counterexample :
    global_htn_rate twoRowDf = .ok 50
    ∧ filterCohort twoRowDf 18 65 [] ["Moderate"] = []
    ∧ (summarize 50 25 (filterCohort twoRowDf 18 65 [] ["Moderate"])).risk_delta = 0
    ∧ ((0 : ℚ) - 50 ≠ 0) := by
  have hfc : filterCohort twoRowDf 18 65 [] ["Moderate"] = [] := by decide
  refine ⟨?_, hfc, by rw [hfc]; rfl, by norm_num⟩
  have hcy : countYes twoRowDf = 1 := by decide
  have hlen : twoRowDf.length = 2 := by decide
  simp only [global_htn_rate, hcy, hlen]
  norm_num

/-- Claim C2 (code bug): at the empty cohort the summary has `total == 0`
and `prevalence == 0` from the explicit `total_p > 0` guard, but no
`dominant_category` is produced at all: the `"Mixed"` fallback of line 153
sits inside the guarded branch and is unreachable when the cohort is empty,
so `dom_stage` is `none` rather than `"Mixed"`. -/
theorem c2_empty_cohort_eval :
    (summarize 50 25 (filterCohort twoRowDf 18 65 ["No", "Yes"] [])).total_p = 0
    ∧ (summarize 50 25 (filterCohort twoRowDf 18 65 ["No", "Yes"] [])).current_risk = 0
    ∧ (summarize 50 25 (filterCohort twoRowDf 18 65 ["No", "Yes"] [])).dom_stage = none
    ∧ (summarize 50 25 (filterCohort twoRowDf 18 65 ["No", "Yes"] [])).dom_stage
        ≠ some "Mixed" := by
  have hfc : filterCohort twoRowDf 18 65 ["No", "Yes"] [] = [] := by decide
  rw [hfc]
  exact ⟨rfl, rfl, rfl, by simp [summarize_of_empty]⟩

/-- Claim C8 (amended): over a non-empty validated table the whole
filter-and-summarize pipeline succeeds for every filter specification —
empty cohorts are handled by the explicit guards, not by a fault. -/
theorem c8_pipeline_total (df : List Row) (ageLo ageHi : ℚ)
    (fh al : List String) (h : df ≠ []) :
    ∃ s, pipeline df ageLo ageHi fh al = .ok s := by
  have hlen : df.length ≠ 0 := fun h0 => h (List.length_eq_zero.mp h0)
  refine ⟨summarize (((countYes df : ℚ) / (df.length : ℚ)) * 100)
      (mean (df.map (·.bmi))) (filterCohort df ageLo ageHi fh al), ?_⟩
  simp [pipeline, global_htn_rate, hlen]

theorem c8_pipeline_total_witness :
    ∃ s, pipeline twoRowDf 18 65 ["No"] ["Moderate"] = .ok s :=
  c8_pipeline_total twoRowDf 18 65 ["No"] ["Moderate"] (by decide)

/-- Claim C8 counterexample: a zero-row validated table makes line 109
divide by `len(df) = 0`, so the pipeline propagates a division fault
instead of completing. -/
theorem c8_counterexample :
    pipeline [] 18 65 ["No"] ["Moderate"] = .error .zeroDivision := rfl

theorem c10_stress_bucket_witness :
    ((summarize 1 2 stressExampleCohort).stress_desc = some "High"
        ↔ 6 < mean (stressExampleCohort.map (·.stressScore)))
    ∧ ((summarize 1 2 stressExampleCohort).stress_desc = some "Moderate"
        ↔ 4 < mean (stressExampleCohort.map (·.stressScore))
          ∧ mean (stressExampleCohort.map (·.stressScore)) ≤ 6)
    ∧ ((summarize 1 2 stressExampleCohort).stress_desc = some "Low"
        ↔ mean (stressExampleCohort.map (·.stressScore)) ≤ 4) :=
  c10_stress_bucket.1 1 2 stressExampleCohort (by decide)

/-- `df[name]` column access on a raw (untyped) table; `none` models the
`KeyError` case at use sites. -/
def getCol (t : List (String × List Value)) (n : String) : Option (List Value) :=
  (t.find? (fun c => c.1 == n)).map (·.2)

/-- `df[name] = vs` for an existing column: replaces that column in place. -/
def setCol (t : List (String × List Value)) (n : String) (vs : List Value) :
    List (String × List Value) :=
  t.map (fun c => if c.1 == n then (c.1, vs) else c)

/-- `Series.fillna(v)`. -/
def fillna (v : Value) (vs : List Value) : List Value :=
  vs.map (fun x => match x with | .na => v | x => x)

/-- The fixed rename dictionary of lines 80–89.  `DataFrame.rename` applies
the mapping label-wise: labels not in the dictionary are kept, and
dictionary keys absent from the table are silently ignored (the pandas
default `errors='ignore'`). -/
def renameMap (n : String) : String :=
  if n == "Has_Hypertension" then "Hypertension"
  else if n == "Smoking_Status" then "Smoking Status"
  else if n == "Salt_Intake" then "Salt Intake"
  else if n == "Stress_Score" then "Stress Score"
  else if n == "BP_History" then "BP History"
  else if n == "Sleep_Duration" then "Sleep Duration"
  else if n == "Exercise_Level" then "Activity Level"
  else if n == "Family_History" then "Family History"
  else n

def renameCols (t : List (String × List Value)) : List (String × List Value) :=
  t.map (fun c => (renameMap c.1, c.2))

/-- Lines 92–98: the life-stage rule table. -/
def assign_life_stage (age : ℚ) : String :=
  if age < 35 then "Young Adult (18-34)"
  else if age < 60 then "Middle-Aged (35-59)"
  else "Senior (60+)"

/-- `df['Age'].apply(assign_life_stage)`: comparing a non-number with `35`
raises `TypeError` in Python 3. -/
def lifeStageCol (vs : List Value) : Except PyErr (List Value) :=
  vs.mapM (fun v => match v with
    | .num q => .ok (.str (assign_life_stage q))
    | _ => .error .typeError)

/-- `df[cols]`: column selection in the given order; `KeyError` when a
requested label is absent from the table. -/
def selectCols (t : List (String × List Value)) (names : List String) :
    Except PyErr (List (String × List Value)) :=
  names.mapM (fun n => match getCol t n with
    | some c => .ok (n, c)
    | none => .error (.keyError n))

/-- Lines 76–106: the loader.  Steps: `df['Medication'].fillna('None')`
(a `KeyError` when Medication is absent), the rename of lines 80–89 (which
performs no validation), the derived `Life Stage` column appended from `Age`
(a `KeyError` when Age is absent), and the final reorder
`df[['Hypertension','Life Stage'] + rest]` (a `KeyError` when Hypertension
is absent, since that list names it unconditionally). -/
def load_data (t : List (String × List Value)) :
    Except PyErr (List (String × List Value)) :=
  match getCol t "Medication" with
  | none => .error (.keyError "Medication")
  | some med =>
    let t2 := renameCols (setCol t "Medication" (fillna (.str "None") med))
    match getCol t2 "Age" with
    | none => .error (.keyError "Age")
    | some ages =>
      match lifeStageCol ages with
      | .error e => .error e
      | .ok ls =>
        let t3 := t2 ++ [("Life Stage", ls)]
        selectCols t3 (["Hypertension", "Life Stage"] ++
          (t3.map (·.1)).filter
            (fun c => !(["Hypertension", "Life Stage"] : List String).contains c))

/-- A one-row input file with every expected source column except
`Smoking_Status`. -/
def tableNoSmoking : List (String × List Value) :=
  [ ("Has_Hypertension", [.str "Yes"]),
    ("Salt_Intake", [.num 8]),
    ("Stress_Score", [.num 5]),
    ("BP_History", [.str "Normal"]),
    ("Sleep_Duration", [.num 7]),
    ("Exercise_Level", [.str "Moderate"]),
    ("Family_History", [.str "No"]),
    ("Age", [.num 30]),
    ("BMI", [.num 25]),
    ("Medication", [.na]) ]

/-- A one-row input file with every expected source column except
`Has_Hypertension`. -/
def tableNoHyp : List (String × List Value) :=
  [ ("Smoking_Status", [.str "Never"]),
    ("Salt_Intake", [.num 8]),
    ("Stress_Score", [.num 5]),
    ("BP_History", [.str "Normal"]),
    ("Sleep_Duration", [.num 7]),
    ("Exercise_Level", [.str "Moderate"]),
    ("Family_History", [.str "No"]),
    ("Age", [.num 30]),
    ("BMI", [.num 25]),
    ("Medication", [.na]) ]

/-- A one-row input file with every expected source column except
`Medication`. -/
def tableNoMed : List (String × List Value) :=
  [ ("Has_Hypertension", [.str "Yes"]),
    ("Smoking_Status", [.str "Never"]),
    ("Salt_Intake", [.num 8]),
    ("Stress_Score", [.num 5]),
    ("BP_History", [.str "Normal"]),
    ("Sleep_Duration", [.num 7]),
    ("Exercise_Level", [.str "Moderate"]),
    ("Family_History", [.str "No"]),
    ("Age", [.num 30]),
    ("BMI", [.num 25]) ]

/-- Claim C7 counterexample: `Smoking_Status` is an expected source column
(§6), yet on a table lacking it the loader succeeds — it does not fail with
a dedicated schema error (nor with any error at all). -/
theorem c7_counterexample :
    "Smoking_Status" ∉ tableNoSmoking.map (·.1)
    ∧ (load_data tableNoSmoking).isOk = true := by
  exact ⟨by decide, by decide⟩

/-- Claim C7 (amended): the loader performs no schema validation.  A missing
source column that the loader touches directly fails with a generic
`KeyError` — Medication at line 78, or Hypertension at the line 103–104
reorder (under its renamed label) — not with a dedicated `SchemaError` or
`DataLoadError`; and a missing column the loader does not touch (such as
`Smoking_Status`) lets the loader succeed, the absence surfacing only
downstream. -/
theorem c7_loader_no_schema_error :
    (∀ t, getCol t "Medication" = none →
        load_data t = .error (.keyError "Medication"))
    ∧ load_data tableNoHyp = .error (.keyError "Hypertension")
    ∧ ("Smoking_Status" ∉ tableNoSmoking.map (·.1)
        ∧ (load_data tableNoSmoking).isOk = true) := by
  refine ⟨?_, rfl, by decide, rfl⟩
  intro t ht
  simp [load_data, ht]

theorem c7_loader_no_schema_error_witness :
    load_data tableNoMed = .error (.keyError "Medication") :=
  c7_loader_no_schema_error.1 tableNoMed rfl

/-- Exact square root of a non-negative rational, when it is rational:
`some s` with `s * s = q`, else `none`.  (`q.num`/`q.den` are coprime, so
`q` is a square of a rational iff numerator and denominator are perfect
squares.)  Used to embed the Pearson denominator exactly; where the true
square root is irrational the embedded correlation is undefined, which no
claim's input exercises. -/
def ratSqrt (q : ℚ) : Option ℚ :=
  if 0 ≤ q ∧ Nat.sqrt q.num.toNat * Nat.sqrt q.num.toNat = q.num.toNat
      ∧ Nat.sqrt q.den * Nat.sqrt q.den = q.den then
    some ((Nat.sqrt q.num.toNat : ℚ) / (Nat.sqrt q.den : ℚ))
  else none

/-- The Pearson product-moment correlation of two equal-length columns, as
computed by `DataFrame.corr()` for one cell: covariance over the product of
standard deviations.  `none` exactly where pandas yields NaN — an empty
column, a zero-variance column — or where the denominator's square root is
irrational (see `ratSqrt`). -/
def pearson (xs ys : List ℚ) : Option ℚ :=
  if xs.length = 0 ∨ ys.length ≠ xs.length then none
  else
    let dx := xs.map (· - mean xs)
    let dy := ys.map (· - mean ys)
    let cov := (List.zipWith (· * ·) dx dy).sum
    let d2 := (dx.map (fun d => d * d)).sum * (dy.map (fun d => d * d)).sum
    match ratSqrt d2 with
    | none => none
    | some d => if d = 0 then none else some (cov / d)

/-- Round half to even (the IEEE/numpy rounding used by `.round`). -/
def roundHalfEven (q : ℚ) : ℤ :=
  if q - ⌊q⌋ < 1/2 then ⌊q⌋
  else if 1/2 < q - ⌊q⌋ then ⌊q⌋ + 1
  else if ⌊q⌋ % 2 = 0 then ⌊q⌋ else ⌊q⌋ + 1

/-- `.round(2)` of line 279. -/
def round2 (q : ℚ) : ℚ := (roundHalfEven (q * 100) : ℚ) / 100

/-- One cell of `corr_matrix = corr_df.corr().round(2)` (line 279). -/
def corrVal (xs ys : List ℚ) : Option ℚ := (pearson xs ys).map round2

/-- Lines 272–276: `corr_df = filtered_df.copy()` with every object column
replaced by `astype('category').cat.codes`.  pandas sorts the distinct
string values ascending to form the categories, so a value's code is its
index in that sorted list (`-1` for NaN).  A column without strings is
numeric and is used as-is (the `.na`/0 fallback there is unreachable from
`rowTable`, whose numeric columns are total). -/
def encodeCol (vs : List Value) : List ℚ :=
  if vs.any (fun v => match v with | .str _ => true | _ => false) then
    let cats := sortStrs ((vs.filterMap (fun v => match v with
        | .str s => some s
        | _ => none)).eraseDups)
    vs.map (fun v => match v with
      | .str s => ((cats.indexOf s : ℕ) : ℚ)
      | _ => -1)
  else
    vs.map (fun v => match v with | .num q => q | _ => 0)

def encodeTable (t : List (String × List Value)) : List (String × List ℚ) :=
  t.map (fun c => (c.1, encodeCol c.2))

/-- The filtered frame as a column table, in the loaded frame's column order
(`['Hypertension', 'Life Stage']` first, then the §6 file order). -/
def rowTable (rows : List Row) : List (String × List Value) :=
  [ ("Hypertension", rows.map (fun r => Value.str r.hypertension)),
    ("Life Stage", rows.map (fun r => Value.str r.lifeStage)),
    ("Smoking Status", rows.map (fun r => Value.str r.smokingStatus)),
    ("Salt Intake", rows.map (fun r => Value.num r.saltIntake)),
    ("Stress Score", rows.map (fun r => Value.num r.stressScore)),
    ("BP History", rows.map (fun r => Value.str r.bpHistory)),
    ("Sleep Duration", rows.map (fun r => Value.num r.sleepDuration)),
    ("Activity Level", rows.map (fun r => Value.str r.activityLevel)),
    ("Family History", rows.map (fun r => Value.str r.familyHistory)),
    ("Age", rows.map (fun r => Value.num r.age)),
    ("BMI", rows.map (fun r => Value.num r.bmi)),
    ("Medication", rows.map (fun r => Value.str r.medication)) ]

/-- `s = c.unstack()` where `c = corr_matrix.abs()` (lines 282–283): one
entry per (column label, row label) pair, outer level iterating columns in
frame order, inner level iterating rows; the value is the absolute rounded
correlation of the two columns (`none` for NaN). -/
def absEntries (cols : List (String × List ℚ)) :
    List ((String × String) × Option ℚ) :=
  cols.flatMap (fun a => cols.map (fun b => ((a.1, b.1), (corrVal b.2 a.2).map (|·|))))

/-- The non-NaN entries, order preserved.  pandas `sort_values` places the
NaN entries last (`na_position='last'`) and the band filters of lines
285–286 drop them (`NaN < 1.0` and `NaN > 0.1` are both false), so the NaN
entries are dropped before sorting without affecting the rest. -/
def someEntries (l : List ((String × String) × Option ℚ)) :
    List ((String × String) × ℚ) :=
  l.filterMap (fun e => match e.2 with
    | some v => some (e.1, v)
    | none => none)

/-- Stable ascending insertion (numpy's insertion sort, which its introsort
runs outright on arrays below the partitioning cutoff). -/
def insertAsc (e : (String × String) × ℚ) :
    List ((String × String) × ℚ) → List ((String × String) × ℚ)
  | [] => [e]
  | f :: rest => if f.2 < e.2 then f :: insertAsc e rest else e :: f :: rest

def sortAsc : List ((String × String) × ℚ) → List ((String × String) × ℚ)
  | [] => []
  | e :: rest => insertAsc e (sortAsc rest)

/-- Line 284: `so = s.sort_values(kind="quicksort", ascending=False)`.
pandas argsorts ascending with numpy and reverses the resulting permutation
for a descending sort, so entries with equal keys end up in reversed
traversal order. -/
def sortValuesDesc (l : List ((String × String) × ℚ)) :
    List ((String × String) × ℚ) :=
  (sortAsc l).reverse

/-- Lines 285–286: `so = so[so < 1.0]` then `so = so[so > 0.1]`. -/
def bandFilter (l : List ((String × String) × ℚ)) :
    List ((String × String) × ℚ) :=
  (l.filter (fun e => decide (e.2 < 1))).filter (fun e => decide (1/10 < e.2))

/-- `sorted([index[0], index[1]])` of line 291: the canonical (ascending)
ordering of the two column names of a pair. -/
def canonPair (p : String × String) : String × String :=
  if p.1 ≤ p.2 then p else (p.2, p.1)

/-- Lines 288–295: the `seen`-set deduplication, keeping first occurrences
in order.  The key the source uses is the string
`f"{pair[0]} ↔ {pair[1]}"` built from the canonically ordered pair, which
is in bijection with that pair (no column name contains the separator), so
the pair itself serves as the key. -/
def dedupePairs (seen : List (String × String)) :
    List ((String × String) × ℚ) → List ((String × String) × ℚ)
  | [] => []
  | e :: rest =>
    if e.1 ∈ seen then dedupePairs seen rest
    else e :: dedupePairs (e.1 :: seen) rest

/-- Lines 281–295 end to end: the `unique_pairs` list, each element the
canonically ordered pair with its |coefficient| (the last component of the
source's 4-tuples; the display label is presentation glue). -/
def extractPairs (cols : List (String × List ℚ)) :
    List ((String × String) × ℚ) :=
  dedupePairs []
    ((bandFilter (sortValuesDesc (someEntries (absEntries cols)))).map
      (fun e => (canonPair e.1, e.2)))

/-- The whole Correlation Lab computation (lines 272–295) on a cohort. -/
def corrLab (cohort : List Row) : List ((String × String) × ℚ) :=
  extractPairs (encodeTable (rowTable cohort))

/-- The canonical (lexicographic) ordering on column-name pairs, as used by
the spec's determinism sentence. -/
def pairLexLe (p q : String × String) : Prop :=
  p.1 < q.1 ∨ (p.1 = q.1 ∧ p.2 ≤ q.2)

theorem dedupePairs_sublist (l : List ((String × String) × ℚ)) :
    ∀ seen, (dedupePairs seen l).Sublist l := by
  induction l with
  | nil => intro seen; simp [dedupePairs]
  | cons e rest ih =>
    intro seen
    simp only [dedupePairs]
    by_cases h : e.1 ∈ seen
    · rw [if_pos h]
      exact (ih seen).trans (List.sublist_cons_self e rest)
    · rw [if_neg h]
      exact (ih (e.1 :: seen)).cons₂ e

theorem dedupePairs_keys (l : List ((String × String) × ℚ)) :
    ∀ seen, ((dedupePairs seen l).map (·.1)).Nodup
      ∧ ∀ k ∈ (dedupePairs seen l).map (·.1), k ∉ seen := by
  induction l with
  | nil => intro seen; simp [dedupePairs]
  | cons e rest ih =>
    intro seen
    simp only [dedupePairs]
    by_cases h : e.1 ∈ seen
    · rw [if_pos h]; exact ih seen
    · rw [if_neg h]
      obtain ⟨ihn, ihs⟩ := ih (e.1 :: seen)
      constructor
      · simp only [List.map_cons, List.nodup_cons]
        exact ⟨fun hk => (ihs _ hk) (List.mem_cons_self _ _), ihn⟩
      · intro k hk
        simp only [List.map_cons, List.mem_cons] at hk
        rcases hk with rfl | hk
        · exact h
        · exact fun hks => (ihs k hk) (List.mem_cons_of_mem _ hks)

theorem mem_insertAsc (e a : (String × String) × ℚ) :
    ∀ l, a ∈ insertAsc e l ↔ a = e ∨ a ∈ l := by
  intro l
  induction l with
  | nil => simp [insertAsc]
  | cons f rest ih =>
    simp only [insertAsc]
    by_cases h : f.2 < e.2
    · rw [if_pos h]
      simp only [List.mem_cons, ih]
      tauto
    · rw [if_neg h]
      simp only [List.mem_cons]

theorem pairwise_insertAsc (e : (String × String) × ℚ)
    (l : List ((String × String) × ℚ))
    (hl : l.Pairwise (fun a b => a.2 ≤ b.2)) :
    (insertAsc e l).Pairwise (fun a b => a.2 ≤ b.2) := by
  induction l with
  | nil => simp [insertAsc]
  | cons f rest ih =>
    obtain ⟨hf, hrest⟩ := List.pairwise_cons.mp hl
    simp only [insertAsc]
    by_cases h : f.2 < e.2
    · rw [if_pos h]
      refine List.pairwise_cons.mpr ⟨?_, ih hrest⟩
      intro b hb
      rcases (mem_insertAsc e b rest).mp hb with rfl | hb
      · exact le_of_lt h
      · exact hf b hb
    · rw [if_neg h]
      refine List.pairwise_cons.mpr ⟨?_, hl⟩
      intro b hb
      rcases List.mem_cons.mp hb with rfl | hb
      · exact not_lt.mp h
      · exact le_trans (not_lt.mp h) (hf b hb)

theorem pairwise_sortAsc (l : List ((String × String) × ℚ)) :
    (sortAsc l).Pairwise (fun a b => a.2 ≤ b.2) := by
  induction l with
  | nil => simp [sortAsc]
  | cons e rest ih => exact pairwise_insertAsc e _ ih

theorem mem_sortAsc (a : (String × String) × ℚ) :
    ∀ l, a ∈ sortAsc l ↔ a ∈ l := by
  intro l
  induction l with
  | nil => simp [sortAsc]
  | cons e rest ih =>
    simp only [sortAsc, mem_insertAsc, ih, List.mem_cons]

theorem extractPairs_mem {cols : List (String × List ℚ)}
    {e : (String × String) × ℚ} (he : e ∈ extractPairs cols) :
    ∃ f ∈ someEntries (absEntries cols),
      e = (canonPair f.1, f.2) ∧ 1/10 < f.2 ∧ f.2 < 1 := by
  have h1 : e ∈ (bandFilter (sortValuesDesc (someEntries (absEntries cols)))).map
      (fun f => (canonPair f.1, f.2)) :=
    (dedupePairs_sublist _ []).subset he
  obtain ⟨f, hf, hfe⟩ := List.mem_map.mp h1
  simp only [bandFilter, List.mem_filter, decide_eq_true_eq] at hf
  obtain ⟨⟨hmem, hlt1⟩, hgt⟩ := hf
  simp only [sortValuesDesc, List.mem_reverse, mem_sortAsc] at hmem
  exact ⟨f, hmem, hfe.symm, hgt, hlt1⟩

theorem mem_absEntries {cols : List (String × List ℚ)}
    {x : (String × String) × Option ℚ} (hx : x ∈ absEntries cols) :
    ∃ a ∈ cols, ∃ b ∈ cols,
      x = ((a.1, b.1), (corrVal b.2 a.2).map (|·|)) := by
  simp only [absEntries, List.mem_flatMap, List.mem_map] at hx
  obtain ⟨a, ha, b, hb, hab⟩ := hx
  exact ⟨a, ha, b, hb, hab.symm⟩

theorem mem_someEntries {l : List ((String × String) × Option ℚ)}
    {f : (String × String) × ℚ} (hf : f ∈ someEntries l) :
    (f.1, some f.2) ∈ l := by
  simp only [someEntries, List.mem_filterMap] at hf
  obtain ⟨x, hx, hxf⟩ := hf
  cases hval : x.2 with
  | none => rw [hval] at hxf; simp at hxf
  | some v =>
    rw [hval] at hxf
    simp only [Option.some.injEq] at hxf
    have hfx : (f.1, some f.2) = (x.1, x.2) := by rw [← hxf, hval]
    rw [hfx]
    exact hx

theorem zipWith_mul_self (l : List ℚ) :
    List.zipWith (· * ·) l l = l.map (fun d => d * d) := by
  induction l with
  | nil => rfl
  | cons a t ih => simp [ih]

theorem ratSqrt_mul_self (s : ℚ) (hs : 0 ≤ s) : ratSqrt (s * s) = some s := by
  have hsnum : 0 ≤ s.num := Rat.num_nonneg.mpr hs
  have htn : (s * s).num.toNat = s.num.toNat * s.num.toNat := by
    rw [Rat.mul_self_num, ← Int.toNat_of_nonneg hsnum, ← Nat.cast_mul,
      Int.toNat_natCast, Int.toNat_natCast]
  have hden : (s * s).den = s.den * s.den := Rat.mul_self_den s
  rw [ratSqrt, if_pos ⟨mul_self_nonneg s,
    by rw [htn, Nat.sqrt_eq], by rw [hden, Nat.sqrt_eq]⟩]
  congr 1
  rw [htn, Nat.sqrt_eq, hden, Nat.sqrt_eq]
  have hnc : ((s.num.toNat : ℚ)) = ((s.num : ℤ) : ℚ) := by
    rw [← Int.toNat_of_nonneg hsnum]
    push_cast
    rfl
  rw [hnc]
  exact Rat.num_div_den s

theorem pearson_self (xs : List ℚ) :
    pearson xs xs = some 1 ∨ pearson xs xs = none := by
  by_cases h0 : xs.length = 0 ∨ xs.length ≠ xs.length
  · right
    rw [pearson, if_pos h0]
  · rw [pearson, if_neg h0]
    simp only [zipWith_mul_self]
    set s := ((xs.map (· - mean xs)).map (fun d => d * d)).sum with hs
    have hsnn : 0 ≤ s := by
      rw [hs]
      refine List.sum_nonneg ?_
      intro x hx
      obtain ⟨d, _, rfl⟩ := List.mem_map.mp hx
      exact mul_self_nonneg d
    rw [ratSqrt_mul_self s hsnn]
    by_cases hz : s = 0
    · right
      simp [hz]
    · left
      simp [hz, div_self hz]

theorem round2_one : round2 1 = 1 := by
  rw [round2, roundHalfEven]
  norm_num

theorem round2_half : round2 (1/2) = 1/2 := by
  rw [round2, roundHalfEven]
  norm_num

theorem round2_neg_half : round2 (-(1/2)) = -(1/2) := by
  rw [round2, roundHalfEven]
  norm_num

theorem canonPair_lt {p : String × String} (h : p.1 ≠ p.2) :
    (canonPair p).1 < (canonPair p).2 := by
  rw [canonPair]
  by_cases hle : p.1 ≤ p.2
  · rw [if_pos hle]
    exact lt_of_le_of_ne hle h
  · rw [if_neg hle]
    exact not_le.mp hle

theorem names_encodeTable (rows : List Row) :
    (encodeTable (rowTable rows)).map (·.1) =
      ["Hypertension", "Life Stage", "Smoking Status", "Salt Intake",
       "Stress Score", "BP History", "Sleep Duration", "Activity Level",
       "Family History", "Age", "BMI", "Medication"] := by
  simp [encodeTable, rowTable]

/-- Claim C3: every coefficient in the correlation ranker's output has
absolute value strictly between 0.1 and 1.0, and is never exactly 1.0: the
entries pass through the `so < 1.0` and `so > 0.1` masks of lines 285–286
after the matrix was made absolute at line 282. -/
theorem c3_coefficient_band (cohort : List Row) (e : (String × String) × ℚ)
    (he : e ∈ corrLab cohort) :
    1/10 < |e.2| ∧ |e.2| < 1 ∧ e.2 ≠ 1 := by
  obtain ⟨f, hf, hef, hgt, hlt⟩ := extractPairs_mem he
  have he2 : e.2 = f.2 := by rw [hef]
  have hpos : (0:ℚ) < f.2 := lt_trans (by norm_num) hgt
  rw [he2, abs_of_pos hpos]
  exact ⟨hgt, hlt, ne_of_lt hlt⟩

/-- Claim C5 (amended): the ranker's output is sorted in descending order
of its (absolute) coefficient, and is a deterministic function of the
cohort; ties, however, are ordered by the reversed unstack traversal of the
matrix, not by the canonical pair ordering. -/
theorem c5_sorted_descending (cohort : List Row) :
    (corrLab cohort).Pairwise (fun a b => b.2 ≤ a.2) := by
  have h1 : (sortValuesDesc (someEntries (absEntries
      (encodeTable (rowTable cohort))))).Pairwise (fun a b => b.2 ≤ a.2) := by
    rw [sortValuesDesc, List.pairwise_reverse]
    exact pairwise_sortAsc _
  have h2 : (bandFilter (sortValuesDesc (someEntries (absEntries
      (encodeTable (rowTable cohort)))))).Pairwise (fun a b => b.2 ≤ a.2) :=
    List.Pairwise.sublist ((List.filter_sublist _).trans (List.filter_sublist _)) h1
  have h3 : ((bandFilter (sortValuesDesc (someEntries (absEntries
      (encodeTable (rowTable cohort)))))).map
        (fun f => (canonPair f.1, f.2))).Pairwise (fun a b => b.2 ≤ a.2) :=
    List.pairwise_map.mpr h2
  exact List.Pairwise.sublist (dedupePairs_sublist _ []) h3

/-- Claim C6: each unordered column pair appears at most once in the
ranker's output — the `seen` set deduplicates canonical pairs, every
emitted pair is strictly canonically ordered (so (B,A) with B > A never
appears), and self-pairs are impossible because a column's self-correlation
is 1.0 (or NaN for zero variance), which the `so < 1.0` mask removes. -/
theorem c6_pairs_unique (cohort : List Row) :
    ((corrLab cohort).map (·.1)).Nodup
    ∧ (∀ e ∈ corrLab cohort, e.1.1 < e.1.2)
    ∧ (∀ a b : String, (a, b) ∈ (corrLab cohort).map (·.1) →
        (b, a) ∉ (corrLab cohort).map (·.1)) := by
  have hnames : ((encodeTable (rowTable cohort)).map (·.1)).Nodup := by
    rw [names_encodeTable]
    decide
  have hstrict : ∀ e ∈ corrLab cohort, e.1.1 < e.1.2 := by
    intro e he
    obtain ⟨f, hf, hef, hgt, hlt⟩ := extractPairs_mem he
    obtain ⟨a, ha, b, hb, hx⟩ := mem_absEntries (mem_someEntries hf)
    have hf1 : f.1 = (a.1, b.1) := congrArg Prod.fst hx
    have hf2 : some f.2 = (corrVal b.2 a.2).map (|·|) := congrArg Prod.snd hx
    have hne : a.1 ≠ b.1 := by
      intro heq
      have hab : a = b := List.inj_on_of_nodup_map hnames ha hb heq
      subst hab
      rcases pearson_self a.2 with hp | hp
      · rw [corrVal, hp, Option.map_some', round2_one, Option.map_some'] at hf2
        have : f.2 = |(1:ℚ)| := Option.some.inj hf2
        rw [this, abs_one] at hlt
        exact lt_irrefl 1 hlt
      · rw [corrVal, hp] at hf2
        simp at hf2
    have : e.1 = canonPair (a.1, b.1) := by rw [hef, hf1]
    rw [this]
    exact canonPair_lt hne
  refine ⟨?_, hstrict, ?_⟩
  · exact (dedupePairs_keys _ []).1
  · intro a b hab hba
    obtain ⟨e1, he1, hk1⟩ := List.mem_map.mp hab
    obtain ⟨e2, he2, hk2⟩ := List.mem_map.mp hba
    have h1 := hstrict e1 he1
    have h2 := hstrict e2 he2
    rw [hk1] at h1
    rw [hk2] at h2
    exact lt_asymm h1 h2

/-- Claim C4 (amended): the coefficient the ranker reports for a pair is the
absolute value of the (rounded) Pearson correlation of the two encoded
columns — the sign of a negative correlation is discarded by the
`corr_matrix.abs()` of line 282; the reported value lies in (0.1, 1.0), and
the underlying rounded correlation lies in (-1, 1). -/
theorem c4_reported_magnitude (cohort : List Row) (e : (String × String) × ℚ)
    (he : e ∈ corrLab cohort) :
    ∃ a ∈ encodeTable (rowTable cohort), ∃ b ∈ encodeTable (rowTable cohort),
      e.1 = canonPair (a.1, b.1)
      ∧ ∃ r, pearson b.2 a.2 = some r ∧ e.2 = |round2 r|
        ∧ 1/10 < e.2 ∧ e.2 < 1
        ∧ -1 < round2 r ∧ round2 r < 1 := by
  obtain ⟨f, hf, hef, hgt, hlt⟩ := extractPairs_mem he
  obtain ⟨a, ha, b, hb, hx⟩ := mem_absEntries (mem_someEntries hf)
  have hf1 : f.1 = (a.1, b.1) := congrArg Prod.fst hx
  have hf2 : some f.2 = (corrVal b.2 a.2).map (|·|) := congrArg Prod.snd hx
  have he1 : e.1 = canonPair (a.1, b.1) := by rw [hef, hf1]
  have he2 : e.2 = f.2 := by rw [hef]
  refine ⟨a, ha, b, hb, he1, ?_⟩
  rcases hp : pearson b.2 a.2 with _ | r
  · rw [corrVal, hp] at hf2
    simp at hf2
  · rw [corrVal, hp, Option.map_some', Option.map_some'] at hf2
    have hfr : f.2 = |round2 r| := Option.some.inj hf2
    have habs : |round2 r| < 1 := by rw [← hfr]; exact hlt
    obtain ⟨hlo, hhi⟩ := abs_lt.mp habs
    exact ⟨r, rfl, by rw [he2, hfr], by rw [he2]; exact hgt,
      by rw [he2]; exact hlt, hlo, hhi⟩

theorem ratSqrt_zero : ratSqrt 0 = some 0 := by
  have h := ratSqrt_mul_self 0 le_rfl
  simpa using h

theorem ratSqrt_four : ratSqrt 4 = some 2 := by
  have h := ratSqrt_mul_self 2 (by norm_num)
  norm_num at h
  exact h

theorem pearson_const3_left (c : ℚ) (ys : List ℚ) (h : ys.length = 3) :
    pearson [c, c, c] ys = none := by
  have hmean : mean [c, c, c] = c := by
    rw [mean]
    simp only [List.sum_cons, List.sum_nil, List.length_cons, List.length_nil]
    norm_num
    ring
  simp [pearson, h, hmean, ratSqrt_zero]

theorem pearson_const3_right (xs : List ℚ) (c : ℚ) (h : xs.length = 3) :
    pearson xs [c, c, c] = none := by
  have hmean : mean [c, c, c] = c := by
    rw [mean]
    simp only [List.sum_cons, List.sum_nil, List.length_cons, List.length_nil]
    norm_num
    ring
  simp [pearson, h, hmean, ratSqrt_zero]

theorem pearson_c4_aa : pearson [24, 25, 26] [24, 25, 26] = some 1 := by
  have hm : mean [(24:ℚ), 25, 26] = 25 := by norm_num [mean]
  norm_num [pearson, hm, ratSqrt_four]

theorem pearson_c4_bb : pearson [26, 24, 25] [26, 24, 25] = some 1 := by
  have hm : mean [(26:ℚ), 24, 25] = 25 := by norm_num [mean]
  norm_num [pearson, hm, ratSqrt_four]

theorem pearson_c4_ab : pearson [24, 25, 26] [26, 24, 25] = some (-(1/2)) := by
  have hm1 : mean [(24:ℚ), 25, 26] = 25 := by norm_num [mean]
  have hm2 : mean [(26:ℚ), 24, 25] = 25 := by norm_num [mean]
  norm_num [pearson, hm1, hm2, ratSqrt_four]

theorem pearson_c4_ba : pearson [26, 24, 25] [24, 25, 26] = some (-(1/2)) := by
  have hm1 : mean [(24:ℚ), 25, 26] = 25 := by norm_num [mean]
  have hm2 : mean [(26:ℚ), 24, 25] = 25 := by norm_num [mean]
  norm_num [pearson, hm1, hm2, ratSqrt_four]

theorem pearson_salt_salt : pearson [7, 8, 9] [7, 8, 9] = some 1 := by
  have hm : mean [(7:ℚ), 8, 9] = 8 := by norm_num [mean]
  norm_num [pearson, hm, ratSqrt_four]

theorem pearson_stress_stress : pearson [6, 4, 5] [6, 4, 5] = some 1 := by
  have hm : mean [(6:ℚ), 4, 5] = 5 := by norm_num [mean]
  norm_num [pearson, hm, ratSqrt_four]

theorem pearson_age_age : pearson [25, 26, 24] [25, 26, 24] = some 1 := by
  have hm : mean [(25:ℚ), 26, 24] = 25 := by norm_num [mean]
  norm_num [pearson, hm, ratSqrt_four]

theorem pearson_salt_stress : pearson [7, 8, 9] [6, 4, 5] = some (-(1/2)) := by
  have hm1 : mean [(7:ℚ), 8, 9] = 8 := by norm_num [mean]
  have hm2 : mean [(6:ℚ), 4, 5] = 5 := by norm_num [mean]
  norm_num [pearson, hm1, hm2, ratSqrt_four]

theorem pearson_stress_salt : pearson [6, 4, 5] [7, 8, 9] = some (-(1/2)) := by
  have hm1 : mean [(7:ℚ), 8, 9] = 8 := by norm_num [mean]
  have hm2 : mean [(6:ℚ), 4, 5] = 5 := by norm_num [mean]
  norm_num [pearson, hm1, hm2, ratSqrt_four]

theorem pearson_salt_age : pearson [7, 8, 9] [25, 26, 24] = some (-(1/2)) := by
  have hm1 : mean [(7:ℚ), 8, 9] = 8 := by norm_num [mean]
  have hm2 : mean [(25:ℚ), 26, 24] = 25 := by norm_num [mean]
  norm_num [pearson, hm1, hm2, ratSqrt_four]

theorem pearson_age_salt : pearson [25, 26, 24] [7, 8, 9] = some (-(1/2)) := by
  have hm1 : mean [(7:ℚ), 8, 9] = 8 := by norm_num [mean]
  have hm2 : mean [(25:ℚ), 26, 24] = 25 := by norm_num [mean]
  norm_num [pearson, hm1, hm2, ratSqrt_four]

theorem pearson_stress_age : pearson [6, 4, 5] [25, 26, 24] = some (-(1/2)) := by
  have hm1 : mean [(6:ℚ), 4, 5] = 5 := by norm_num [mean]
  have hm2 : mean [(25:ℚ), 26, 24] = 25 := by norm_num [mean]
  norm_num [pearson, hm1, hm2, ratSqrt_four]

theorem pearson_age_stress : pearson [25, 26, 24] [6, 4, 5] = some (-(1/2)) := by
  have hm1 : mean [(6:ℚ), 4, 5] = 5 := by norm_num [mean]
  have hm2 : mean [(25:ℚ), 26, 24] = 25 := by norm_num [mean]
  norm_num [pearson, hm1, hm2, ratSqrt_four]

/-- A three-row cohort in which only Age and BMI vary: Age = [24,25,26],
BMI = [26,24,25].  Their Pearson correlation is exactly -1/2; every other
column is constant, so every other matrix cell is NaN. -/
def corrExCohort : List Row :=
  [ { baseRow with age := 24, bmi := 26 },
    { baseRow with age := 25, bmi := 24 },
    { baseRow with age := 26, bmi := 25 } ]

/-- The encoded column table of `corrExCohort`: constant string columns
encode to the constant code 0, numeric columns pass through. -/
def corrExCols : List (String × List ℚ) :=
  [ ("Hypertension", [0, 0, 0]),
    ("Life Stage", [0, 0, 0]),
    ("Smoking Status", [0, 0, 0]),
    ("Salt Intake", [8, 8, 8]),
    ("Stress Score", [5, 5, 5]),
    ("BP History", [0, 0, 0]),
    ("Sleep Duration", [7, 7, 7]),
    ("Activity Level", [0, 0, 0]),
    ("Family History", [0, 0, 0]),
    ("Age", [24, 25, 26]),
    ("BMI", [26, 24, 25]),
    ("Medication", [0, 0, 0]) ]

theorem encode_corrEx : encodeTable (rowTable corrExCohort) = corrExCols := by
  decide

set_option maxHeartbeats 1600000 in
theorem corrLab_corrEx : corrLab corrExCohort = [(("Age", "BMI"), 1/2)] := by
  have habs : |(-(1/2) : ℚ)| = 1/2 := by
    rw [abs_neg]
    exact abs_of_pos (by norm_num)
  have hAB : ("Age" : String) < "BMI" := by
    rw [String.lt_iff_toList_lt]
    decide
  have hc1 : canonPair ("Age", "BMI") = ("Age", "BMI") := by
    rw [canonPair, if_pos (le_of_lt hAB)]
  have hc2 : canonPair ("BMI", "Age") = ("Age", "BMI") := by
    rw [canonPair, if_neg (not_le.mpr hAB)]
  rw [corrLab, encode_corrEx]
  norm_num [extractPairs, absEntries, someEntries, sortValuesDesc, sortAsc,
    insertAsc, bandFilter, dedupePairs, corrExCols, corrVal,
    pearson_const3_left, pearson_const3_right,
    pearson_c4_aa, pearson_c4_bb, pearson_c4_ab, pearson_c4_ba,
    round2_one, round2_neg_half, habs, abs_one, hc1, hc2,
    List.flatMap_cons, List.flatMap_nil, List.filterMap_cons, List.filter_cons]

/-- Claim C4 counterexample: on `corrExCohort` the encoded Age and BMI
columns have signed Pearson correlation -1/2, yet the ranker reports the
pair ("Age","BMI") with coefficient 1/2 — the negative sign is not
reported, because line 282 takes `corr_matrix.abs()` before extracting. -/
theorem c4_counterexample :
    ("Age", ([24, 25, 26] : List ℚ)) ∈ encodeTable (rowTable corrExCohort)
    ∧ ("BMI", ([26, 24, 25] : List ℚ)) ∈ encodeTable (rowTable corrExCohort)
    ∧ pearson [24, 25, 26] [26, 24, 25] = some (-(1/2))
    ∧ corrLab corrExCohort = [(("Age", "BMI"), 1/2)]
    ∧ ((1:ℚ)/2) ≠ -(1/2) := by
  refine ⟨?_, ?_, pearson_c4_ab, corrLab_corrEx, by norm_num⟩
  · rw [encode_corrEx]
    decide
  · rw [encode_corrEx]
    decide

theorem c4_reported_magnitude_witness :
    ∃ a ∈ encodeTable (rowTable corrExCohort),
      ∃ b ∈ encodeTable (rowTable corrExCohort),
        ((("Age", "BMI"), (1:ℚ)/2) : (String × String) × ℚ).1 = canonPair (a.1, b.1)
        ∧ ∃ r, pearson b.2 a.2 = some r
          ∧ ((("Age", "BMI"), (1:ℚ)/2) : (String × String) × ℚ).2 = |round2 r|
          ∧ 1/10 < ((("Age", "BMI"), (1:ℚ)/2) : (String × String) × ℚ).2
          ∧ ((("Age", "BMI"), (1:ℚ)/2) : (String × String) × ℚ).2 < 1
          ∧ -1 < round2 r ∧ round2 r < 1 :=
  c4_reported_magnitude corrExCohort (("Age", "BMI"), 1/2)
    (by rw [corrLab_corrEx]; exact List.mem_singleton.mpr rfl)

theorem c3_coefficient_band_witness :
    1/10 < |((1:ℚ)/2)| ∧ |((1:ℚ)/2)| < 1 ∧ ((1:ℚ)/2) ≠ 1 :=
  c3_coefficient_band corrExCohort (("Age", "BMI"), 1/2)
    (by rw [corrLab_corrEx]; exact List.mem_singleton.mpr rfl)

theorem c6_pairs_unique_witness : ("Age" : String) < "BMI" :=
  (c6_pairs_unique corrExCohort).2.1 (("Age", "BMI"), 1/2)
    (by rw [corrLab_corrEx]; exact List.mem_singleton.mpr rfl)

/-- A three-row cohort in which Salt Intake = [7,8,9], Stress Score =
[6,4,5] and Age = [25,26,24] vary and everything else is constant.  All
three pairwise Pearson correlations are exactly -1/2, producing a
three-way tie of absolute coefficient 1/2 in the ranker. -/
def tieCohort : List Row :=
  [ { baseRow with saltIntake := 7, stressScore := 6, age := 25 },
    { baseRow with saltIntake := 8, stressScore := 4, age := 26 },
    { baseRow with saltIntake := 9, stressScore := 5, age := 24 } ]

/-- The encoded column table of `tieCohort`. -/
def tieCols : List (String × List ℚ) :=
  [ ("Hypertension", [0, 0, 0]),
    ("Life Stage", [0, 0, 0]),
    ("Smoking Status", [0, 0, 0]),
    ("Salt Intake", [7, 8, 9]),
    ("Stress Score", [6, 4, 5]),
    ("BP History", [0, 0, 0]),
    ("Sleep Duration", [7, 7, 7]),
    ("Activity Level", [0, 0, 0]),
    ("Family History", [0, 0, 0]),
    ("Age", [25, 26, 24]),
    ("BMI", [25, 25, 25]),
    ("Medication", [0, 0, 0]) ]

theorem encode_tie : encodeTable (rowTable tieCohort) = tieCols := by
  decide

set_option maxHeartbeats 1600000 in
theorem corrLab_tie :
    corrLab tieCohort =
      [ (("Age", "Stress Score"), 1/2),
        (("Age", "Salt Intake"), 1/2),
        (("Salt Intake", "Stress Score"), 1/2) ] := by
  have habs : |(-(1/2) : ℚ)| = 1/2 := by
    rw [abs_neg]
    exact abs_of_pos (by norm_num)
  have hASa : ("Age" : String) < "Salt Intake" := by
    rw [String.lt_iff_toList_lt]
    decide
  have hASt : ("Age" : String) < "Stress Score" := by
    rw [String.lt_iff_toList_lt]
    decide
  have hSaSt : ("Salt Intake" : String) < "Stress Score" := by
    rw [String.lt_iff_toList_lt]
    decide
  have hc1 : canonPair ("Salt Intake", "Stress Score") = ("Salt Intake", "Stress Score") := by
    rw [canonPair, if_pos (le_of_lt hSaSt)]
  have hc2 : canonPair ("Stress Score", "Salt Intake") = ("Salt Intake", "Stress Score") := by
    rw [canonPair, if_neg (not_le.mpr hSaSt)]
  have hc3 : canonPair ("Salt Intake", "Age") = ("Age", "Salt Intake") := by
    rw [canonPair, if_neg (not_le.mpr hASa)]
  have hc4 : canonPair ("Age", "Salt Intake") = ("Age", "Salt Intake") := by
    rw [canonPair, if_pos (le_of_lt hASa)]
  have hc5 : canonPair ("Stress Score", "Age") = ("Age", "Stress Score") := by
    rw [canonPair, if_neg (not_le.mpr hASt)]
  have hc6 : canonPair ("Age", "Stress Score") = ("Age", "Stress Score") := by
    rw [canonPair, if_pos (le_of_lt hASt)]
  have hne1 : ("Salt Intake" : String) ≠ "Stress Score" := ne_of_lt hSaSt
  have hne2 : ("Stress Score" : String) ≠ "Salt Intake" := (ne_of_lt hSaSt).symm
  have hne3 : ("Age" : String) ≠ "Salt Intake" := ne_of_lt hASa
  have hne4 : ("Salt Intake" : String) ≠ "Age" := (ne_of_lt hASa).symm
  have hne5 : ("Age" : String) ≠ "Stress Score" := ne_of_lt hASt
  have hne6 : ("Stress Score" : String) ≠ "Age" := (ne_of_lt hASt).symm
  rw [corrLab, encode_tie]
  norm_num [extractPairs, absEntries, someEntries, sortValuesDesc, sortAsc,
    insertAsc, bandFilter, dedupePairs, tieCols, corrVal,
    pearson_const3_left, pearson_const3_right,
    pearson_salt_salt, pearson_stress_stress, pearson_age_age,
    pearson_salt_stress, pearson_stress_salt, pearson_salt_age,
    pearson_age_salt, pearson_stress_age, pearson_age_stress,
    round2_one, round2_neg_half, habs, abs_one,
    hc1, hc2, hc3, hc4, hc5, hc6, hne1, hne2, hne3, hne4, hne5, hne6,
    List.flatMap_cons, List.flatMap_nil, List.filterMap_cons, List.filter_cons]

/-- Claim C5 counterexample: on `tieCohort` the three reported pairs all tie
at absolute coefficient 1/2, yet ("Age","Salt Intake") — canonically
(lexicographically) smaller than ("Age","Stress Score") — appears after it,
so equal-coefficient ties are not ordered by the canonical pair ordering
(the order comes from the reversed unstack traversal of the matrix). -/
theorem c5_counterexample :
    corrLab tieCohort =
      [ (("Age", "Stress Score"), 1/2),
        (("Age", "Salt Intake"), 1/2),
        (("Salt Intake", "Stress Score"), 1/2) ]
    ∧ pairLexLe ("Age", "Salt Intake") ("Age", "Stress Score")
    ∧ ("Age", "Salt Intake") ≠ (("Age", "Stress Score") : String × String) := by
  refine ⟨corrLab_tie, Or.inr ⟨rfl, le_of_lt ?_⟩, by decide⟩
  rw [String.lt_iff_toList_lt]
  decide
